import Mathlib

set_option maxRecDepth 10000

/- Verification development for the scriptures-tui core. The definitions
   below are a shallow embedding of src/app.rs (markup-to-styled-text
   renderer, footnote linker, navigation state machine) and src/handler.rs
   (mouse scroll handling). XML parsing is performed by the external
   roxmltree collaborator, so parsed markup is represented directly as a
   tree; machine integers (usize, u16) are modelled as Nat, with the
   explicit truncation the code performs where it matters. -/

/-- Markup tree node as exposed by the parsing collaborator roxmltree: an
element carries a tag, an attribute list and a list of children; a text
node carries its content. -/
inductive XNode where
  | element (tag : String) (attrs : List (String × String)) (children : List XNode)
  | text (content : String)
deriving Repr

/-- Attribute lookup by name, as roxmltree Node attribute: only elements
carry attributes. -/
def XNode.attribute (n : XNode) (key : String) : Option String :=
  match n with
  | .element _ attrs _ => (attrs.find? (fun p => decide (p.fst = key))).map Prod.snd
  | .text _ => none

/-- Tag name of a node; roxmltree reports an empty name for non-element
nodes. -/
def XNode.tagName : XNode → String
  | .element t _ _ => t
  | .text _ => ""

/-- Whether the node is a text node (roxmltree is_text). -/
def XNode.isText : XNode → Bool
  | .text _ => true
  | .element _ _ _ => false

/-- Direct children of a node. -/
def XNode.children : XNode → List XNode
  | .element _ _ cs => cs
  | .text _ => []

/-- Node text, as roxmltree Node text: the content of a text node, or the
content of the first child of an element when that child is a text node. -/
def XNode.nodeText : XNode → Option String
  | .text s => some s
  | .element _ _ cs =>
    match cs with
    | .text s :: _ => some s
    | _ => none

mutual

/-- Descendants of a node in document order (the node itself first, then
the descendants of each child, depth first), as roxmltree descendants. -/
def XNode.descendants : XNode → List XNode
  | .text s => [.text s]
  | .element t a cs => .element t a cs :: descendantsList cs

/-- Descendants of each node of a list, in order. -/
def descendantsList : List XNode → List XNode
  | [] => []
  | c :: cs => c.descendants ++ descendantsList cs

end

mutual

/-- Model of recursive_text_as_string in src/app.rs: append the text of
every text node reachable from the given node, depth first, to the
accumulator. -/
def recursive_text_as_string : XNode → String → String
  | .text t, s => s ++ t
  | .element _ _ cs, s => recursiveTextList cs s

/-- Fold recursive_text_as_string over a child list. -/
def recursiveTextList : List XNode → String → String
  | [], s => s
  | c :: cs, s => recursiveTextList cs (recursive_text_as_string c s)

end

/-- Collected text of a node, starting from the empty accumulator. -/
def collectText (n : XNode) : String := recursive_text_as_string n ""

/-- Model of footnote_unicode in src/app.rs: the footnote marker mapper,
a match on single lowercase letter strings. -/
def footnote_unicode (string : Option String) : Option String :=
  match string with
  | none => none
  | some input =>
    if input = "a" then some "ᵃ"
    else if input = "b" then some "ᵇ"
    else if input = "c" then some "ᶜ"
    else if input = "d" then some "ᵈ"
    else if input = "e" then some "ᵉ"
    else if input = "f" then some "ᶠ"
    else if input = "g" then some "ᵍ"
    else if input = "h" then some "ʰ"
    else if input = "i" then some "ⁱ"
    else if input = "j" then some "ʲ"
    else if input = "k" then some "ᵏ"
    else if input = "l" then some "ˡ"
    else if input = "m" then some "ᵐ"
    else if input = "n" then some "ⁿ"
    else if input = "o" then some "ᵒ"
    else if input = "p" then some "ᵖ"
    else if input = "q" then some "q"
    else if input = "r" then some "ʳ"
    else if input = "s" then some "ˢ"
    else if input = "t" then some "ᵗ"
    else if input = "u" then some "ᵘ"
    else if input = "v" then some "ᵛ"
    else if input = "w" then some "ʷ"
    else if input = "x" then some "ˣ"
    else if input = "y" then some "ʸ"
    else if input = "z" then some "ᶻ"
    else none

/-- Emphasis flags of a styled span (the subset of tui style modifiers the
core uses). -/
structure TStyle where
  bold : Bool := false
  italic : Bool := false
deriving Repr, DecidableEq

/-- Styled span: text content plus emphasis. -/
structure TSpan where
  content : String
  style : TStyle := {}
deriving Repr, DecidableEq

/-- Horizontal alignment of a styled line, as tui layout Alignment. -/
inductive TAlign where
  | left
  | center
  | right
deriving Repr, DecidableEq

/-- Styled line: spans plus optional alignment, as tui text Line. -/
structure TLine where
  spans : List TSpan := []
  alignment : Option TAlign := none
deriving Repr, DecidableEq

/-- Rust str lines: split on newline, dropping a trailing empty segment. -/
def strLines (s : String) : List String :=
  let parts := s.splitOn "\n"
  if parts.getLast? = some "" then parts.dropLast else parts

/-- Model of tui Text raw: one unstyled line per text line, with an empty
input producing a single empty line. -/
def textRaw (s : String) : List TLine :=
  if s = "" then [{ spans := [{ content := "" }] }]
  else (strLines s).map (fun l => { spans := [{ content := l }] })

/-- Model of tui Text styled: as textRaw with every span given the style. -/
def textStyled (s : String) (st : TStyle) : List TLine :=
  if s = "" then [{ spans := [{ content := "", style := st }] }]
  else (strLines s).map (fun l => { spans := [{ content := l, style := st }] })

/-- The blank line the verse loop appends after each verse line. -/
def emptyLine : TLine := { spans := [{ content := "" }] }

/-- Footnote with label and content markup, as loaded from the data
collaborator. The label tree is the parse of the label markup wrapped in a
paragraph tag, and the content tree is the parse of the content markup;
both parses are performed by the external roxmltree collaborator. -/
structure Footnote where
  id : String
  label_doc : XNode
  content_doc : XNode
deriving Repr

/-- Chapter: title, parsed body markup, and the footnote table. The Rust
HashMap with unique keys is modelled as an association list looked up by
id. -/
structure Chapter where
  title : String
  doc : XNode
  footnotes : List (String × Footnote)
deriving Repr

/-- Footnote table lookup by reference id. -/
def lookupFootnote (c : Chapter) (r : String) : Option Footnote :=
  (c.footnotes.find? (fun p => decide (p.fst = r))).map Prod.snd

/-- Model of refs_in_order in src/app.rs: the data-ref attribute of every
descendant whose class attribute is study-note-ref, in document order,
without deduplication. -/
def Chapter.refs_in_order (c : Chapter) : List String :=
  let nodes := c.doc.descendants.filter
    (fun n => decide (n.attribute "class" = some "study-note-ref"))
  nodes.filterMap (fun n => n.attribute "data-ref")

/-- The one output line produced for a resolved footnote: a bold span with
the collected label text, then an unstyled span with the collected content
text. -/
def footnoteLine (fn : Footnote) : TLine :=
  { spans := [{ content := collectText fn.label_doc, style := { bold := true } },
              { content := collectText fn.content_doc }],
    alignment := none }

/-- The loop of footnotes_text: for each reference id in order, emit a line
when the footnote table has an entry and skip the id silently otherwise. -/
def footnotesLines (c : Chapter) : List String → List TLine
  | [] => []
  | r :: rs =>
    match lookupFootnote c r with
    | some fn => footnoteLine fn :: footnotesLines c rs
    | none => footnotesLines c rs

/-- Model of footnotes_text in src/app.rs: the footnote linker. -/
def Chapter.footnotes_text (c : Chapter) : List TLine :=
  footnotesLines c c.refs_in_order

/-- Spans emitted for one child of a study-note-ref node in verse_text: a
sup tag child whose text maps through footnote_unicode yields one italic
glyph span; a text child yields a span that is italic inside a
clarity-word and unstyled otherwise. Both inline loops of verse_text in
src/app.rs have this shape, differing only in the text-child styling. -/
def snr_span_one (ital : Bool) (c : XNode) : List TSpan :=
  if c.tagName = "sup" then
    match footnote_unicode c.nodeText with
    | some g => [{ content := g, style := { italic := true } }]
    | none => []
  else
    match c with
    | .text t => [{ content := t, style := if ital then { italic := true } else {} }]
    | .element _ _ _ => []

/-- The child loop over a study-note-ref node. -/
def snr_spans (ital : Bool) : List XNode → List TSpan
  | [] => []
  | c :: cs => snr_span_one ital c ++ snr_spans ital cs

/-- Spans emitted for one child of a clarity-word node that wraps a
reference rather than direct text: a study-note-ref child expands with
italic styling, a text child becomes an italic span, anything else is
skipped. -/
def clarity_span_one (c : XNode) : List TSpan :=
  if c.attribute "class" = some "study-note-ref" then
    snr_spans true c.children
  else
    match c with
    | .text t => [{ content := t, style := { italic := true } }]
    | .element _ _ _ => []

/-- The child loop over a clarity-word node wrapping a reference. -/
def clarity_spans : List XNode → List TSpan
  | [] => []
  | c :: cs => clarity_span_one c ++ clarity_spans cs

/-- Spans contributed by one direct child of a verse node, following the
branch order of verse_text in src/app.rs. The unwrap of the child text in
the verse-number and para-mark branches is modelled as Option failure. -/
def verse_child_spans (child : XNode) : Option (List TSpan) :=
  if child.attribute "class" = some "verse-number" then
    (child.nodeText).map (fun t => [{ content := t, style := { bold := true } }])
  else if child.attribute "class" = some "para-mark" ∨ child.isText = true then
    (child.nodeText).map (fun t => [{ content := t }])
  else if child.attribute "class" = some "clarity-word" then
    match child.nodeText with
    | some t => some [{ content := t, style := { italic := true } }]
    | none => some (clarity_spans child.children)
  else if child.attribute "class" = some "study-note-ref" then
    some (snr_spans false child.children)
  else
    some []

/-- The child loop of verse_text, concatenating the spans of each child
and propagating a panic from any child. -/
def verse_spans : List XNode → Option (List TSpan)
  | [] => some []
  | c :: cs => do
    let s ← verse_child_spans c
    let rest ← verse_spans cs
    pure (s ++ rest)

/-- Model of verse_text in src/app.rs: build one styled line from the
direct children of a verse node; none models a panic. -/
def verse_text (node : XNode) : Option TLine :=
  (verse_spans node.children).map (fun sp => { spans := sp, alignment := none })

/-- Header lines of Chapter text in src/app.rs: title, subtitle, intro and
study summary, each emitted only when the matching direct child of the
header node exists. -/
def header_lines (header : XNode) : List TLine :=
  let titlePart :=
    match header.children.find? (fun n => decide (n.attribute "id" = some "title1")) with
    | some n => [{ spans := [{ content := collectText n, style := { bold := true } }],
                   alignment := some .center }]
    | none => []
  let subtitlePart :=
    match header.children.find? (fun n => decide (n.attribute "id" = some "subtitle1")) with
    | some n => [{ spans := [{ content := collectText n, style := { bold := true } }],
                   alignment := some .center }]
    | none => []
  let introPart :=
    match header.children.find? (fun n => decide (n.attribute "id" = some "intro1")) with
    | some n => textRaw "" ++ textRaw (collectText n)
    | none => []
  let summaryPart :=
    match header.children.find? (fun n => decide (n.attribute "class" = some "study-summary")) with
    | some n => textRaw "" ++ textStyled (collectText n) { italic := true } ++ textRaw ""
    | none => []
  titlePart ++ subtitlePart ++ introPart ++ summaryPart

/-- The verse loop of Chapter text: each verse line is followed by one
blank line; a panic in any verse propagates. -/
def verses_lines : List XNode → Option (List TLine)
  | [] => some []
  | v :: vs => do
    let l ← verse_text v
    let rest ← verses_lines vs
    pure (l :: emptyLine :: rest)

/-- Model of Chapter text in src/app.rs: the chapter renderer. The parse
of the chapter markup is the given tree; with no body element the result
is the empty model, otherwise the header lines (when a header node exists)
followed by one line plus one blank line per verse descendant in document
order. -/
def Chapter.text (c : Chapter) : Option (List TLine) :=
  match c.doc.descendants.find? (fun n => decide (n.tagName = "body")) with
  | none => some []
  | some body =>
    let headerPart :=
      match body.descendants.find? (fun n => decide (n.tagName = "header")) with
      | none => []
      | some h => header_lines h
    (verses_lines (body.descendants.filter
        (fun n => decide (n.attribute "class" = some "verse")))).map
      (fun vl => headerPart ++ vl)

/-- Book: title and ordered chapters. -/
structure Book where
  title : String
  chapters : List Chapter
deriving Repr

/-- Work: title and ordered books. -/
structure Work where
  title : String
  books : List Book
deriving Repr

/-- The loaded corpus: an ordered list of works. -/
structure Scriptures where
  works : List Work
deriving Repr

/-- Default work, as the Rust derived Default. -/
def defaultWork : Work := { title := "", books := [] }

/-- Default book, as the Rust derived Default. -/
def defaultBook : Book := { title := "", chapters := [] }

/-- Model of the constant NUM_COLUMNS in src/app.rs. -/
def NUM_COLUMNS : Nat := 3

/-- Terminal rectangle with u16 coordinates, as tui layout Rect. -/
structure TRect where
  x : Nat := 0
  y : Nat := 0
  width : Nat := 0
  height : Nat := 0
deriving Repr, DecidableEq

/-- Rect right edge: x saturating-plus width in u16. -/
def TRect.right (r : TRect) : Nat := min (r.x + r.width) 65535

/-- Rect bottom edge: y saturating-plus height in u16. -/
def TRect.bottom (r : TRect) : Nat := min (r.y + r.height) 65535

/-- Rect left edge. -/
def TRect.left (r : TRect) : Nat := r.x

/-- Rect top edge. -/
def TRect.top (r : TRect) : Nat := r.y

/-- Application state from src/app.rs. The tui ListState selection cursors
are modelled by their selected index (an Option, as ListState selected
returns). -/
structure App where
  running : Bool
  data : Scriptures
  column_selected : Nat
  works_state : Option Nat
  books_state : Option Nat
  chapters_state : Option Nat
  text_rect : TRect
  text_scroll : Nat
  footnote_rect : TRect
  footnote_scroll : Nat
deriving Repr

/-- Model of current_chapter in src/app.rs: index the corpus by the three
selected indices (each defaulted to 0 when no selection); an out-of-range
index panics in Rust and is modelled as none. -/
def App.current_chapter (a : App) : Option Chapter := do
  let w ← a.data.works.get? (a.works_state.getD 0)
  let b ← w.books.get? (a.books_state.getD 0)
  b.chapters.get? (a.chapters_state.getD 0)

/-- Model of chapter_text in src/app.rs. -/
def App.chapter_text (a : App) : Option (List TLine) := do
  let c ← a.current_chapter
  Chapter.text c

/-- Model of chapter_footnotes_text in src/app.rs. -/
def App.chapter_footnotes_text (a : App) : Option (List TLine) :=
  (a.current_chapter).map Chapter.footnotes_text

/-- Length of the book list of the currently selected work, as the
re-derived expression in update_books. The Rust index into works panics
when out of range; the model uses the default work there, which agrees
with the source on every state whose indices are in range. -/
def App.books_len (a : App) : Nat :=
  (a.data.works.getD (a.works_state.getD 0) defaultWork).books.length

/-- Length of the chapter list of the currently selected book, as the
re-derived expression in update_chapters, with the same indexing
convention as books_len. -/
def App.chapters_len (a : App) : Nat :=
  ((a.data.works.getD (a.works_state.getD 0) defaultWork).books.getD
    (a.books_state.getD 0) defaultBook).chapters.length

/-- Model of update_works in src/app.rs: advance or retreat the work index
with wraparound over the work list length, then reset the book and chapter
selections and both scroll offsets. -/
def App.update_works (a : App) (down : Bool) : App :=
  let i :=
    if down then
      match a.works_state with
      | some i => if i = a.data.works.length - 1 then 0 else i + 1
      | none => 0
    else
      match a.works_state with
      | some i => if i = 0 then a.data.works.length - 1 else i - 1
      | none => 0
  { a with works_state := some i, books_state := some 0, chapters_state := some 0,
           text_scroll := 0, footnote_scroll := 0 }

/-- Model of update_books in src/app.rs: advance or retreat the book index
with wraparound over the current book list length, then reset the chapter
selection and both scroll offsets. -/
def App.update_books (a : App) (down : Bool) : App :=
  let i :=
    if down then
      match a.books_state with
      | some i => if i = a.books_len - 1 then 0 else i + 1
      | none => 0
    else
      match a.books_state with
      | some i => if i = 0 then a.books_len - 1 else i - 1
      | none => 0
  { a with books_state := some i, chapters_state := some 0,
           text_scroll := 0, footnote_scroll := 0 }

/-- Model of update_chapters in src/app.rs: advance or retreat the chapter
index with wraparound over the current chapter list length, then reset
both scroll offsets. -/
def App.update_chapters (a : App) (down : Bool) : App :=
  let i :=
    if down then
      match a.chapters_state with
      | some i => if i = a.chapters_len - 1 then 0 else i + 1
      | none => 0
    else
      match a.chapters_state with
      | some i => if i = 0 then a.chapters_len - 1 else i - 1
      | none => 0
  { a with chapters_state := some i, text_scroll := 0, footnote_scroll := 0 }

/-- Model of arrow_down in src/app.rs; the source marks columns other than
0, 1, 2 unreachable, modelled as the identity. -/
def App.arrow_down (a : App) : App :=
  match a.column_selected with
  | 0 => a.update_works true
  | 1 => a.update_books true
  | 2 => a.update_chapters true
  | _ => a

/-- Model of arrow_up in src/app.rs, with the same unreachable convention
as arrow_down. -/
def App.arrow_up (a : App) : App :=
  match a.column_selected with
  | 0 => a.update_works false
  | 1 => a.update_books false
  | 2 => a.update_chapters false
  | _ => a

/-- Model of arrow_left in src/app.rs: rotate the active column left. -/
def App.arrow_left (a : App) : App :=
  if a.column_selected = 0 then { a with column_selected := NUM_COLUMNS - 1 }
  else { a with column_selected := a.column_selected - 1 }

/-- Model of arrow_right in src/app.rs: rotate the active column right. -/
def App.arrow_right (a : App) : App :=
  if a.column_selected = NUM_COLUMNS - 1 then { a with column_selected := 0 }
  else { a with column_selected := a.column_selected + 1 }

/-- Mouse event kinds relevant to the handler. -/
inductive MouseKind where
  | scrollDown
  | scrollUp
  | other
deriving Repr, DecidableEq

/-- Mouse event: kind plus pointer coordinates. -/
structure MouseEvent where
  kind : MouseKind
  column : Nat
  row : Nat
deriving Repr, DecidableEq

/-- The pointer containment test of handle_mouse_events, exactly as
written in src/handler.rs: inclusive on all four edges. -/
def inRect (r : TRect) (c row : Nat) : Bool :=
  decide (c ≤ r.right) && decide (r.left ≤ c) && decide (r.top ≤ row) &&
    decide (row ≤ r.bottom)

/-- Model of handle_mouse_events in src/handler.rs. The wrap-aware line
count of the external drawing collaborator (tui Paragraph line_count with
Wrap) is an abstract parameter; its usize result is cast to u16 by
truncation as in the source. none models a panic inside the handler. -/
def handle_mouse_events (lineCount : List TLine → Nat → Nat) (ev : MouseEvent)
    (a : App) : Option App :=
  match ev.kind with
  | .scrollDown =>
    if inRect a.text_rect ev.column ev.row then
      (a.chapter_text).map (fun t =>
        let lc := lineCount t a.text_rect.width % 65536
        let maxScroll := if lc < a.text_rect.height then 0 else lc - a.text_rect.height
        { a with text_scroll := min maxScroll (a.text_scroll + 1) })
    else if inRect a.footnote_rect ev.column ev.row then
      (a.chapter_footnotes_text).map (fun t =>
        let lc := lineCount t a.footnote_rect.width % 65536
        let maxScroll := if lc < a.footnote_rect.height then 0 else lc - a.footnote_rect.height
        { a with footnote_scroll := min maxScroll (a.footnote_scroll + 1) })
    else some a
  | .scrollUp =>
    if inRect a.text_rect ev.column ev.row then
      some { a with text_scroll := if a.text_scroll = 0 then 0 else a.text_scroll - 1 }
    else if inRect a.footnote_rect ev.column ev.row then
      some { a with footnote_scroll :=
        if a.footnote_scroll = 0 then 0 else a.footnote_scroll - 1 }
    else some a
  | .other => some a

/-- A navigation state is valid when every selection cursor holds an index
in range for the collection it selects from. -/
def App.valid (a : App) : Prop :=
  ∃ w b ch, a.works_state = some w ∧ a.books_state = some b ∧
    a.chapters_state = some ch ∧
    w < a.data.works.length ∧
    b < (a.data.works.getD w defaultWork).books.length ∧
    ch < ((a.data.works.getD w defaultWork).books.getD b defaultBook).chapters.length

/-- The loader guarantee: every work has at least one book and every book
at least one chapter. -/
def Scriptures.nonemptyDown (s : Scriptures) : Prop :=
  (∀ w ∈ s.works, 0 < w.books.length) ∧
  ∀ w ∈ s.works, ∀ b ∈ w.books, 0 < b.chapters.length

/-- Index advance with wraparound over a collection of length L, the
pattern shared by the three update functions when moving down. -/
def wrapNextF (L i : Nat) : Nat := if i = L - 1 then 0 else i + 1

/-- Index retreat with wraparound over a collection of length L, the
pattern shared by the three update functions when moving up. -/
def wrapPrevF (L i : Nat) : Nat := if i = 0 then L - 1 else i - 1

lemma wrapNextF_lt (L i : Nat) (h : i < L) : wrapNextF L i < L := by
  unfold wrapNextF; split <;> omega

lemma wrapPrevF_lt (L i : Nat) (h : i < L) : wrapPrevF L i < L := by
  unfold wrapPrevF; split <;> omega

lemma wrapNextF_mod (L i : Nat) (h : i < L) : wrapNextF L i = (i + 1) % L := by
  unfold wrapNextF
  by_cases h1 : i = L - 1
  · subst h1
    rw [if_pos rfl]
    have h2 : L - 1 + 1 = L := by omega
    rw [h2, Nat.mod_self]
  · rw [if_neg h1, Nat.mod_eq_of_lt (by omega)]

lemma wrapPrevF_mod (L i : Nat) (h : i < L) : wrapPrevF L i = (i + (L - 1)) % L := by
  unfold wrapPrevF
  by_cases h1 : i = 0
  · subst h1
    rw [if_pos rfl, Nat.zero_add, Nat.mod_eq_of_lt (by omega)]
  · rw [if_neg h1]
    have h2 : i + (L - 1) = (i - 1) + L := by omega
    rw [h2, Nat.add_mod_right, Nat.mod_eq_of_lt (by omega)]

lemma wrapNextF_iter (L : Nat) : ∀ (k i : Nat), i < L →
    (wrapNextF L)^[k] i = (i + k) % L := by
  intro k
  induction k with
  | zero => intro i h; simp [Nat.mod_eq_of_lt h]
  | succ k ih =>
    intro i h
    rw [Function.iterate_succ_apply, ih _ (wrapNextF_lt L i h), wrapNextF_mod L i h,
      Nat.mod_add_mod]
    congr 1
    omega

lemma wrapPrevF_iter (L : Nat) : ∀ (k i : Nat), i < L →
    (wrapPrevF L)^[k] i = (i + k * (L - 1)) % L := by
  intro k
  induction k with
  | zero => intro i h; simp [Nat.mod_eq_of_lt h]
  | succ k ih =>
    intro i h
    rw [Function.iterate_succ_apply, ih _ (wrapPrevF_lt L i h), wrapPrevF_mod L i h,
      Nat.mod_add_mod]
    congr 1
    rw [Nat.succ_mul]
    omega

lemma wrapNextF_cycle (L m i : Nat) (h : i < L) : (wrapNextF L)^[m * L] i = i := by
  rw [wrapNextF_iter L (m * L) i h, Nat.add_mul_mod_self_right, Nat.mod_eq_of_lt h]

lemma wrapPrevF_cycle (L m i : Nat) (h : i < L) : (wrapPrevF L)^[m * L] i = i := by
  rw [wrapPrevF_iter L (m * L) i h]
  have h2 : m * L * (L - 1) = m * (L - 1) * L := by ring
  rw [h2, Nat.add_mul_mod_self_right, Nat.mod_eq_of_lt h]

/-- A chapter with featureless markup, used to build concrete states. -/
def sampleChapter : Chapter := { title := "c", doc := .element "html" [] [], footnotes := [] }

/-- A concrete application state over a two-work corpus, with all three
selections at index 0 and the given active column. -/
def sampleApp (k : Nat) : App :=
  { running := true,
    data := { works :=
      [ { title := "w1", books :=
          [ { title := "b1", chapters := [sampleChapter, sampleChapter] },
            { title := "b2", chapters := [sampleChapter] } ] },
        { title := "w2", books :=
          [ { title := "b3", chapters := [sampleChapter] } ] } ] },
    column_selected := k, works_state := some 0, books_state := some 0,
    chapters_state := some 0,
    text_rect := {}, text_scroll := 0, footnote_rect := {}, footnote_scroll := 0 }

/-- A concrete application state over an empty corpus with nonzero scroll
offsets and selections, with the given active column. -/
def navApp (k : Nat) : App :=
  { running := true, data := { works := [] }, column_selected := k,
    works_state := some 3, books_state := some 4, chapters_state := some 5,
    text_rect := {}, text_scroll := 6, footnote_rect := {}, footnote_scroll := 7 }

/-- C1: in a valid navigation state over a corpus in which every work has
at least one book and every book at least one chapter, moveDown at the
active column sends index i to i + 1 when i is below the containing
collection length minus 1 and to 0 at the last index; moveUp sends i to
i - 1 when i is positive and to length - 1 at 0; the length is the one
re-derived from the current selection path, and the resulting index stays
below it. -/
theorem nav_move_wraparound (a : App) (hv : a.valid) (hne : a.data.nonemptyDown) :
    (a.column_selected = 0 → ∀ i, a.works_state = some i →
      ((i < a.data.works.length - 1 → (a.arrow_down).works_state = some (i + 1)) ∧
       (i = a.data.works.length - 1 → (a.arrow_down).works_state = some 0) ∧
       (0 < i → (a.arrow_up).works_state = some (i - 1)) ∧
       (i = 0 → (a.arrow_up).works_state = some (a.data.works.length - 1)) ∧
       (∀ j, (a.arrow_down).works_state = some j → j < a.data.works.length) ∧
       (∀ j, (a.arrow_up).works_state = some j → j < a.data.works.length))) ∧
    (a.column_selected = 1 → ∀ i, a.books_state = some i →
      ((i < a.books_len - 1 → (a.arrow_down).books_state = some (i + 1)) ∧
       (i = a.books_len - 1 → (a.arrow_down).books_state = some 0) ∧
       (0 < i → (a.arrow_up).books_state = some (i - 1)) ∧
       (i = 0 → (a.arrow_up).books_state = some (a.books_len - 1)) ∧
       (∀ j, (a.arrow_down).books_state = some j → j < a.books_len) ∧
       (∀ j, (a.arrow_up).books_state = some j → j < a.books_len))) ∧
    (a.column_selected = 2 → ∀ i, a.chapters_state = some i →
      ((i < a.chapters_len - 1 → (a.arrow_down).chapters_state = some (i + 1)) ∧
       (i = a.chapters_len - 1 → (a.arrow_down).chapters_state = some 0) ∧
       (0 < i → (a.arrow_up).chapters_state = some (i - 1)) ∧
       (i = 0 → (a.arrow_up).chapters_state = some (a.chapters_len - 1)) ∧
       (∀ j, (a.arrow_down).chapters_state = some j → j < a.chapters_len) ∧
       (∀ j, (a.arrow_up).chapters_state = some j → j < a.chapters_len))) := by
  obtain ⟨w, b, ch, hw, hb, hch, hwl, hbl, hchl⟩ := hv
  refine ⟨?_, ?_, ?_⟩
  · intro hc i hi
    rw [hw] at hi
    simp only [Option.some.injEq] at hi
    subst hi
    have hdw : (a.arrow_down).works_state =
        some (if w = a.data.works.length - 1 then 0 else w + 1) := by
      unfold App.arrow_down
      rw [hc]
      simp [App.update_works, hw]
    have huw : (a.arrow_up).works_state =
        some (if w = 0 then a.data.works.length - 1 else w - 1) := by
      unfold App.arrow_up
      rw [hc]
      simp [App.update_works, hw]
    refine ⟨?_, ?_, ?_, ?_, ?_, ?_⟩
    · intro h; rw [hdw, if_neg (by omega)]
    · intro h; rw [hdw, if_pos h]
    · intro h; rw [huw, if_neg (by omega)]
    · intro h; rw [huw, if_pos h]
    · intro j hj
      rw [hdw] at hj
      simp only [Option.some.injEq] at hj
      split_ifs at hj <;> omega
    · intro j hj
      rw [huw] at hj
      simp only [Option.some.injEq] at hj
      split_ifs at hj <;> omega
  · intro hc i hi
    rw [hb] at hi
    simp only [Option.some.injEq] at hi
    subst hi
    have hlen : a.books_len = (a.data.works.getD w defaultWork).books.length := by
      simp [App.books_len, hw]
    have hdb : (a.arrow_down).books_state =
        some (if b = a.books_len - 1 then 0 else b + 1) := by
      unfold App.arrow_down
      rw [hc]
      simp [App.update_books, hb]
    have hub : (a.arrow_up).books_state =
        some (if b = 0 then a.books_len - 1 else b - 1) := by
      unfold App.arrow_up
      rw [hc]
      simp [App.update_books, hb]
    have hbL : b < a.books_len := by rw [hlen]; exact hbl
    refine ⟨?_, ?_, ?_, ?_, ?_, ?_⟩
    · intro h; rw [hdb, if_neg (by omega)]
    · intro h; rw [hdb, if_pos h]
    · intro h; rw [hub, if_neg (by omega)]
    · intro h; rw [hub, if_pos h]
    · intro j hj
      rw [hdb] at hj
      simp only [Option.some.injEq] at hj
      split_ifs at hj <;> omega
    · intro j hj
      rw [hub] at hj
      simp only [Option.some.injEq] at hj
      split_ifs at hj <;> omega
  · intro hc i hi
    rw [hch] at hi
    simp only [Option.some.injEq] at hi
    subst hi
    have hlen : a.chapters_len =
        ((a.data.works.getD w defaultWork).books.getD b defaultBook).chapters.length := by
      simp [App.chapters_len, hw, hb]
    have hdc : (a.arrow_down).chapters_state =
        some (if ch = a.chapters_len - 1 then 0 else ch + 1) := by
      unfold App.arrow_down
      rw [hc]
      simp [App.update_chapters, hch]
    have huc : (a.arrow_up).chapters_state =
        some (if ch = 0 then a.chapters_len - 1 else ch - 1) := by
      unfold App.arrow_up
      rw [hc]
      simp [App.update_chapters, hch]
    have hcL : ch < a.chapters_len := by rw [hlen]; exact hchl
    refine ⟨?_, ?_, ?_, ?_, ?_, ?_⟩
    · intro h; rw [hdc, if_neg (by omega)]
    · intro h; rw [hdc, if_pos h]
    · intro h; rw [huc, if_neg (by omega)]
    · intro h; rw [huc, if_pos h]
    · intro j hj
      rw [hdc] at hj
      simp only [Option.some.injEq] at hj
      split_ifs at hj <;> omega
    · intro j hj
      rw [huc] at hj
      simp only [Option.some.injEq] at hj
      split_ifs at hj <;> omega

/-- Witness for C1 at a concrete valid two-work state: moveDown at the
work column advances 0 to 1, and moveUp wraps 0 to the last index. -/
theorem nav_move_wraparound_witness :
    ((sampleApp 0).arrow_down).works_state = some 1 ∧
    ((sampleApp 0).arrow_up).works_state = some 1 := by
  have h := nav_move_wraparound (sampleApp 0)
    ⟨0, 0, 0, rfl, rfl, rfl, by decide, by decide, by decide⟩
    ⟨by decide, by decide⟩
  have h0 := h.1 rfl 0 rfl
  exact ⟨h0.1 (by decide), h0.2.2.2.1 rfl⟩

/-- C2: every moveDown or moveUp at the work column resets the book and
chapter selections to 0 and both scroll offsets to 0; at the book column
it resets the chapter selection and both scrolls; at the chapter column it
resets both scrolls; moveLeft and moveRight leave all three selections and
both scrolls unchanged. -/
theorem nav_cascading_resets (a : App) :
    (a.column_selected = 0 →
      (a.arrow_down).books_state = some 0 ∧ (a.arrow_down).chapters_state = some 0 ∧
      (a.arrow_down).text_scroll = 0 ∧ (a.arrow_down).footnote_scroll = 0 ∧
      (a.arrow_up).books_state = some 0 ∧ (a.arrow_up).chapters_state = some 0 ∧
      (a.arrow_up).text_scroll = 0 ∧ (a.arrow_up).footnote_scroll = 0) ∧
    (a.column_selected = 1 →
      (a.arrow_down).chapters_state = some 0 ∧ (a.arrow_down).text_scroll = 0 ∧
      (a.arrow_down).footnote_scroll = 0 ∧
      (a.arrow_up).chapters_state = some 0 ∧ (a.arrow_up).text_scroll = 0 ∧
      (a.arrow_up).footnote_scroll = 0) ∧
    (a.column_selected = 2 →
      (a.arrow_down).text_scroll = 0 ∧ (a.arrow_down).footnote_scroll = 0 ∧
      (a.arrow_up).text_scroll = 0 ∧ (a.arrow_up).footnote_scroll = 0) ∧
    ((a.arrow_left).works_state = a.works_state ∧
     (a.arrow_left).books_state = a.books_state ∧
     (a.arrow_left).chapters_state = a.chapters_state ∧
     (a.arrow_left).text_scroll = a.text_scroll ∧
     (a.arrow_left).footnote_scroll = a.footnote_scroll ∧
     (a.arrow_right).works_state = a.works_state ∧
     (a.arrow_right).books_state = a.books_state ∧
     (a.arrow_right).chapters_state = a.chapters_state ∧
     (a.arrow_right).text_scroll = a.text_scroll ∧
     (a.arrow_right).footnote_scroll = a.footnote_scroll) := by
  refine ⟨?_, ?_, ?_, ?_⟩
  · intro hc
    have hd : a.arrow_down = a.update_works true := by unfold App.arrow_down; rw [hc]
    have hu : a.arrow_up = a.update_works false := by unfold App.arrow_up; rw [hc]
    rw [hd, hu]
    exact ⟨rfl, rfl, rfl, rfl, rfl, rfl, rfl, rfl⟩
  · intro hc
    have hd : a.arrow_down = a.update_books true := by unfold App.arrow_down; rw [hc]
    have hu : a.arrow_up = a.update_books false := by unfold App.arrow_up; rw [hc]
    rw [hd, hu]
    exact ⟨rfl, rfl, rfl, rfl, rfl, rfl⟩
  · intro hc
    have hd : a.arrow_down = a.update_chapters true := by unfold App.arrow_down; rw [hc]
    have hu : a.arrow_up = a.update_chapters false := by unfold App.arrow_up; rw [hc]
    rw [hd, hu]
    exact ⟨rfl, rfl, rfl, rfl⟩
  · and_intros <;> (simp only [App.arrow_left, App.arrow_right]; split <;> rfl)

/-- Witness for C2 at concrete states on each active column, plus a
moveLeft that leaves the book selection alone. -/
theorem nav_cascading_resets_witness :
    ((navApp 0).arrow_down).books_state = some 0 ∧
    ((navApp 1).arrow_up).chapters_state = some 0 ∧
    ((navApp 2).arrow_down).text_scroll = 0 ∧
    ((navApp 1).arrow_left).books_state = some 4 :=
  ⟨((nav_cascading_resets (navApp 0)).1 rfl).1,
   ((nav_cascading_resets (navApp 1)).2.1 rfl).2.2.2.1,
   ((nav_cascading_resets (navApp 2)).2.2.1 rfl).1,
   ((nav_cascading_resets (navApp 1)).2.2.2).2.1⟩

lemma update_works_state_eq (s : App) (i : Nat) (h : s.works_state = some i)
    (down : Bool) :
    (s.update_works down).works_state =
      some (cond down wrapNextF wrapPrevF s.data.works.length i) := by
  cases down <;> simp [App.update_works, h, wrapNextF, wrapPrevF]

lemma update_books_state_eq (s : App) (i : Nat) (h : s.books_state = some i)
    (down : Bool) :
    (s.update_books down).books_state =
      some (cond down wrapNextF wrapPrevF s.books_len i) := by
  cases down <;> simp [App.update_books, h, wrapNextF, wrapPrevF]

lemma update_chapters_state_eq (s : App) (i : Nat) (h : s.chapters_state = some i)
    (down : Bool) :
    (s.update_chapters down).chapters_state =
      some (cond down wrapNextF wrapPrevF s.chapters_len i) := by
  cases down <;> simp [App.update_chapters, h, wrapNextF, wrapPrevF]

lemma iter_col0 (g : App → App) (down : Bool)
    (hg : ∀ s : App, s.column_selected = 0 → g s = s.update_works down)
    (a : App) (hc : a.column_selected = 0) (w : Nat) (hw : a.works_state = some w) :
    ∀ k, (g^[k] a).column_selected = 0 ∧ (g^[k] a).data = a.data ∧
      (g^[k] a).works_state =
        some ((cond down wrapNextF wrapPrevF a.data.works.length)^[k] w) := by
  intro k
  induction k with
  | zero => exact ⟨hc, rfl, by simp [hw]⟩
  | succ k ih =>
    obtain ⟨h1, h2, h3⟩ := ih
    simp only [Function.iterate_succ_apply']
    rw [hg _ h1]
    refine ⟨h1, h2, ?_⟩
    rw [update_works_state_eq _ _ h3 down, h2]

lemma iter_col1 (g : App → App) (down : Bool)
    (hg : ∀ s : App, s.column_selected = 1 → g s = s.update_books down)
    (a : App) (hc : a.column_selected = 1) (b : Nat) (hb : a.books_state = some b) :
    ∀ k, (g^[k] a).column_selected = 1 ∧ (g^[k] a).data = a.data ∧
      (g^[k] a).works_state = a.works_state ∧
      (g^[k] a).books_state =
        some ((cond down wrapNextF wrapPrevF a.books_len)^[k] b) := by
  intro k
  induction k with
  | zero => exact ⟨hc, rfl, rfl, by simp [hb]⟩
  | succ k ih =>
    obtain ⟨h1, h2, h3, h4⟩ := ih
    simp only [Function.iterate_succ_apply']
    rw [hg _ h1]
    have hlen : (g^[k] a).books_len = a.books_len := by
      simp [App.books_len, h2, h3]
    refine ⟨h1, h2, h3, ?_⟩
    rw [update_books_state_eq _ _ h4 down, hlen]

lemma iter_col2 (g : App → App) (down : Bool)
    (hg : ∀ s : App, s.column_selected = 2 → g s = s.update_chapters down)
    (a : App) (hc : a.column_selected = 2) (c : Nat)
    (hch : a.chapters_state = some c) :
    ∀ k, (g^[k] a).column_selected = 2 ∧ (g^[k] a).data = a.data ∧
      (g^[k] a).works_state = a.works_state ∧
      (g^[k] a).books_state = a.books_state ∧
      (g^[k] a).chapters_state =
        some ((cond down wrapNextF wrapPrevF a.chapters_len)^[k] c) := by
  intro k
  induction k with
  | zero => exact ⟨hc, rfl, rfl, rfl, by simp [hch]⟩
  | succ k ih =>
    obtain ⟨h1, h2, h3, h4, h5⟩ := ih
    simp only [Function.iterate_succ_apply']
    rw [hg _ h1]
    have hlen : (g^[k] a).chapters_len = a.chapters_len := by
      simp [App.chapters_len, h2, h3, h4]
    refine ⟨h1, h2, h3, h4, ?_⟩
    rw [update_chapters_state_eq _ _ h5 down, hlen]

/-- C9 amended: from a valid starting selection over a corpus with every
work holding at least one book and every book at least one chapter,
applying moveDown at a fixed active column any multiple of the containing
collection length many times returns that column index to its original
value, and symmetrically for moveUp. The original claim, for every
N >= 1, fails: one application over a two-work corpus moves the index. -/
theorem nav_closure_amended (a : App) (hv : a.valid) (hne : a.data.nonemptyDown) :
    (a.column_selected = 0 → ∀ m,
      ((App.arrow_down)^[m * a.data.works.length] a).works_state = a.works_state ∧
      ((App.arrow_up)^[m * a.data.works.length] a).works_state = a.works_state) ∧
    (a.column_selected = 1 → ∀ m,
      ((App.arrow_down)^[m * a.books_len] a).books_state = a.books_state ∧
      ((App.arrow_up)^[m * a.books_len] a).books_state = a.books_state) ∧
    (a.column_selected = 2 → ∀ m,
      ((App.arrow_down)^[m * a.chapters_len] a).chapters_state = a.chapters_state ∧
      ((App.arrow_up)^[m * a.chapters_len] a).chapters_state = a.chapters_state) := by
  obtain ⟨w, b, ch, hw, hb, hch, hwl, hbl, hchl⟩ := hv
  refine ⟨?_, ?_, ?_⟩
  · intro hc m
    constructor
    · have h := (iter_col0 App.arrow_down true
        (fun s hs => by unfold App.arrow_down; rw [hs]) a hc w hw
        (m * a.data.works.length)).2.2
      rw [h]
      simp only [Bool.cond_true]
      rw [wrapNextF_cycle _ _ _ hwl, hw]
    · have h := (iter_col0 App.arrow_up false
        (fun s hs => by unfold App.arrow_up; rw [hs]) a hc w hw
        (m * a.data.works.length)).2.2
      rw [h]
      simp only [Bool.cond_false]
      rw [wrapPrevF_cycle _ _ _ hwl, hw]
  · intro hc m
    have hbL : b < a.books_len := by simpa [App.books_len, hw] using hbl
    constructor
    · have h := (iter_col1 App.arrow_down true
        (fun s hs => by unfold App.arrow_down; rw [hs]) a hc b hb
        (m * a.books_len)).2.2.2
      rw [h]
      simp only [Bool.cond_true]
      rw [wrapNextF_cycle _ _ _ hbL, hb]
    · have h := (iter_col1 App.arrow_up false
        (fun s hs => by unfold App.arrow_up; rw [hs]) a hc b hb
        (m * a.books_len)).2.2.2
      rw [h]
      simp only [Bool.cond_false]
      rw [wrapPrevF_cycle _ _ _ hbL, hb]
  · intro hc m
    have hcL : ch < a.chapters_len := by simpa [App.chapters_len, hw, hb] using hchl
    constructor
    · have h := (iter_col2 App.arrow_down true
        (fun s hs => by unfold App.arrow_down; rw [hs]) a hc ch hch
        (m * a.chapters_len)).2.2.2.2
      rw [h]
      simp only [Bool.cond_true]
      rw [wrapNextF_cycle _ _ _ hcL, hch]
    · have h := (iter_col2 App.arrow_up false
        (fun s hs => by unfold App.arrow_up; rw [hs]) a hc ch hch
        (m * a.chapters_len)).2.2.2.2
      rw [h]
      simp only [Bool.cond_false]
      rw [wrapPrevF_cycle _ _ _ hcL, hch]

/-- Witness for the amended C9: over the two-work corpus, 1 * 2 moveDown
applications at the work column restore the work index, and so do the
moveUp applications. -/
theorem nav_closure_amended_witness :
    ((App.arrow_down)^[1 * 2] (sampleApp 0)).works_state = some 0 ∧
    ((App.arrow_up)^[1 * 2] (sampleApp 0)).works_state = some 0 :=
  (nav_closure_amended (sampleApp 0)
    ⟨0, 0, 0, rfl, rfl, rfl, by decide, by decide, by decide⟩
    ⟨by decide, by decide⟩).1 rfl 1

/-- A valid two-work state at the work column used to refute the original
C9 claim. -/
def closureApp : App :=
  { running := true,
    data := { works :=
      [ { title := "A", books := [ { title := "b", chapters := [sampleChapter] } ] },
        { title := "B", books := [ { title := "b", chapters := [sampleChapter] } ] } ] },
    column_selected := 0, works_state := some 0, books_state := some 0,
    chapters_state := some 0, text_rect := {}, text_scroll := 0,
    footnote_rect := {}, footnote_scroll := 0 }

/-- Counterexample to C9 as stated: the starting state is valid, every
collection is non-empty, N = 1 is at least 1, yet one moveDown at the work
column does not return the work index to its original value. -/
theorem nav_closure_counterexample :
    closureApp.valid ∧ closureApp.data.nonemptyDown ∧ 1 ≥ 1 ∧
    ((App.arrow_down)^[1] closureApp).works_state ≠ closureApp.works_state := by
  refine ⟨⟨0, 0, 0, rfl, rfl, rfl, by decide, by decide, by decide⟩,
    ⟨by decide, by decide⟩, le_refl 1, ?_⟩
  rw [Function.iterate_one]
  decide

lemma toNat_max_zero (x : Int) : (max 0 x).toNat = x.toNat := by
  rcases le_total 0 x with h | h
  · rw [max_eq_right h]
  · rw [max_eq_left h]
    omega

lemma max_scroll_eq (lc h : Nat) :
    (if lc < h then 0 else lc - h) = Int.toNat (max 0 ((lc : Int) - (h : Int))) := by
  rw [toNat_max_zero]
  split_ifs with hlt <;> omega

/-- A concrete single-chapter state whose body-text viewport contains the
origin, with a body-text scroll offset of 2. -/
def scrollApp : App :=
  { running := true,
    data := { works :=
      [ { title := "W", books := [ { title := "B", chapters := [sampleChapter] } ] } ] },
    column_selected := 0, works_state := some 0, books_state := some 0,
    chapters_state := some 0,
    text_rect := { x := 0, y := 0, width := 10, height := 5 }, text_scroll := 2,
    footnote_rect := { x := 0, y := 20, width := 10, height := 5 },
    footnote_scroll := 0 }

/-- C3 amended: a ScrollDown with the pointer in the body-text viewport
sets the body-text offset to min(old + 1, max(0, wrappedRows - height)),
with wrappedRows the wrap-aware count of the current chapter body model at
the viewport width, so the ScrollDown result never exceeds that bound; a
ScrollUp there yields old - 1 when old is positive, stays at 0, and never
exceeds the old offset; the same holds for the footnote viewport with its
own model and rectangle. Offsets are naturals, hence never negative. The
original final clause fails for ScrollUp: when the old offset already
exceeds the bound (possible after a viewport change), the decremented
offset can still exceed it. -/
theorem scroll_clamp_amended (lineCount : List TLine → Nat → Nat) (ev : MouseEvent)
    (a : App) :
    (ev.kind = .scrollDown → inRect a.text_rect ev.column ev.row = true →
      ∀ t, a.chapter_text = some t →
        (handle_mouse_events lineCount ev a).map App.text_scroll =
          some (min (a.text_scroll + 1)
            (Int.toNat (max 0 (((lineCount t a.text_rect.width % 65536 : Nat) : Int) -
              (a.text_rect.height : Int))))) ∧
        (∀ n, (handle_mouse_events lineCount ev a).map App.text_scroll = some n →
          n ≤ Int.toNat (max 0 (((lineCount t a.text_rect.width % 65536 : Nat) : Int) -
            (a.text_rect.height : Int))))) ∧
    (ev.kind = .scrollDown → inRect a.text_rect ev.column ev.row = false →
      inRect a.footnote_rect ev.column ev.row = true →
      ∀ t, a.chapter_footnotes_text = some t →
        (handle_mouse_events lineCount ev a).map App.footnote_scroll =
          some (min (a.footnote_scroll + 1)
            (Int.toNat (max 0 (((lineCount t a.footnote_rect.width % 65536 : Nat) : Int) -
              (a.footnote_rect.height : Int))))) ∧
        (∀ n, (handle_mouse_events lineCount ev a).map App.footnote_scroll = some n →
          n ≤ Int.toNat (max 0 (((lineCount t a.footnote_rect.width % 65536 : Nat) : Int) -
            (a.footnote_rect.height : Int))))) ∧
    (ev.kind = .scrollUp → inRect a.text_rect ev.column ev.row = true →
      (0 < a.text_scroll →
        (handle_mouse_events lineCount ev a).map App.text_scroll =
          some (a.text_scroll - 1)) ∧
      (a.text_scroll = 0 →
        (handle_mouse_events lineCount ev a).map App.text_scroll = some 0) ∧
      (∀ n, (handle_mouse_events lineCount ev a).map App.text_scroll = some n →
        n ≤ a.text_scroll)) ∧
    (ev.kind = .scrollUp → inRect a.text_rect ev.column ev.row = false →
      inRect a.footnote_rect ev.column ev.row = true →
      (0 < a.footnote_scroll →
        (handle_mouse_events lineCount ev a).map App.footnote_scroll =
          some (a.footnote_scroll - 1)) ∧
      (a.footnote_scroll = 0 →
        (handle_mouse_events lineCount ev a).map App.footnote_scroll = some 0) ∧
      (∀ n, (handle_mouse_events lineCount ev a).map App.footnote_scroll = some n →
        n ≤ a.footnote_scroll)) := by
  refine ⟨?_, ?_, ?_, ?_⟩
  · intro hk ht t hct
    have hh : handle_mouse_events lineCount ev a =
        some { a with text_scroll :=
          (min
            (if lineCount t a.text_rect.width % 65536 < a.text_rect.height then 0
              else lineCount t a.text_rect.width % 65536 - a.text_rect.height)
            (a.text_scroll + 1)) } := by
      simp only [handle_mouse_events, hk, ht, hct, Option.map_some', if_true]
    refine ⟨?_, ?_⟩
    · rw [hh]
      simp only [Option.map_some', Option.some.injEq]
      rw [max_scroll_eq, Nat.min_comm]
    · intro n hn
      rw [hh] at hn
      simp only [Option.map_some', Option.some.injEq] at hn
      subst hn
      rw [max_scroll_eq]
      exact Nat.min_le_left _ _
  · intro hk ht hf t hct
    have hh : handle_mouse_events lineCount ev a =
        some { a with footnote_scroll :=
          (min
            (if lineCount t a.footnote_rect.width % 65536 < a.footnote_rect.height then 0
              else lineCount t a.footnote_rect.width % 65536 - a.footnote_rect.height)
            (a.footnote_scroll + 1)) } := by
      simp only [handle_mouse_events, hk, ht, hf, hct, Option.map_some', if_true,
        Bool.false_eq_true, if_false]
    refine ⟨?_, ?_⟩
    · rw [hh]
      simp only [Option.map_some', Option.some.injEq]
      rw [max_scroll_eq, Nat.min_comm]
    · intro n hn
      rw [hh] at hn
      simp only [Option.map_some', Option.some.injEq] at hn
      subst hn
      rw [max_scroll_eq]
      exact Nat.min_le_left _ _
  · intro hk ht
    have hh : handle_mouse_events lineCount ev a =
        some { a with text_scroll :=
          if a.text_scroll = 0 then 0 else a.text_scroll - 1 } := by
      simp only [handle_mouse_events, hk, ht, if_true]
    refine ⟨?_, ?_, ?_⟩
    · intro h
      rw [hh]
      simp only [Option.map_some', Option.some.injEq]
      rw [if_neg (by omega)]
    · intro h
      rw [hh]
      simp only [Option.map_some', Option.some.injEq]
      rw [if_pos h]
    · intro n hn
      rw [hh] at hn
      simp only [Option.map_some', Option.some.injEq] at hn
      subst hn
      split_ifs <;> omega
  · intro hk ht hf
    have hh : handle_mouse_events lineCount ev a =
        some { a with footnote_scroll :=
          if a.footnote_scroll = 0 then 0 else a.footnote_scroll - 1 } := by
      simp only [handle_mouse_events, hk, ht, hf, if_true, Bool.false_eq_true, if_false]
    refine ⟨?_, ?_, ?_⟩
    · intro h
      rw [hh]
      simp only [Option.map_some', Option.some.injEq]
      rw [if_neg (by omega)]
    · intro h
      rw [hh]
      simp only [Option.map_some', Option.some.injEq]
      rw [if_pos h]
    · intro n hn
      rw [hh] at hn
      simp only [Option.map_some', Option.some.injEq] at hn
      subst hn
      split_ifs <;> omega

/-- Witness for the amended C3: a ScrollDown at the origin of scrollApp
with a zero wrapped row count clamps the offset to the bound. -/
theorem scroll_clamp_amended_witness :
    (handle_mouse_events (fun _ _ => 0)
        { kind := .scrollDown, column := 0, row := 0 } scrollApp).map App.text_scroll =
      some (min (scrollApp.text_scroll + 1)
        (Int.toNat (max 0 ((((fun (_ : List TLine) (_ : Nat) => 0) []
          scrollApp.text_rect.width % 65536 : Nat) : Int) -
          (scrollApp.text_rect.height : Int))))) :=
  ((scroll_clamp_amended (fun _ _ => 0)
    { kind := .scrollDown, column := 0, row := 0 } scrollApp).1 rfl (by decide)
    [] (by decide)).1

/-- Counterexample to C3 as stated: at scrollApp (body-text offset 2,
wrapped row count 0, viewport height 5) a ScrollUp in the body-text
viewport returns offset 1, while max(0, totalRows - viewportHeight) is 0,
so the returned offset exceeds the claimed bound. -/
theorem scroll_clamp_counterexample :
    scrollApp.chapter_text = some [] ∧
    (handle_mouse_events (fun _ _ => 0)
        { kind := .scrollUp, column := 0, row := 0 } scrollApp).map App.text_scroll =
      some 1 ∧
    Int.toNat (max 0 ((((fun (_ : List TLine) (_ : Nat) => 0) []
      scrollApp.text_rect.width % 65536 : Nat) : Int) -
      (scrollApp.text_rect.height : Int))) = 0 := by
  refine ⟨by decide, by decide, by decide⟩

/-- C8: a ScrollUp or ScrollDown whose pointer is outside both the
body-text rectangle and the footnote rectangle leaves the whole state
unchanged. -/
theorem scroll_outside_noop (lineCount : List TLine → Nat → Nat) (ev : MouseEvent)
    (a : App) (hk : ev.kind = .scrollDown ∨ ev.kind = .scrollUp)
    (ht : inRect a.text_rect ev.column ev.row = false)
    (hf : inRect a.footnote_rect ev.column ev.row = false) :
    handle_mouse_events lineCount ev a = some a := by
  rcases hk with h | h <;> simp only [handle_mouse_events, h, ht, hf, Bool.false_eq_true,
    if_false]

/-- Witness for C8 at a pointer far from both rectangles of scrollApp. -/
theorem scroll_outside_noop_witness :
    handle_mouse_events (fun _ _ => 0)
      { kind := .scrollDown, column := 40, row := 40 } scrollApp = some scrollApp :=
  scroll_outside_noop (fun _ _ => 0) { kind := .scrollDown, column := 40, row := 40 }
    scrollApp (Or.inl rfl) (by decide) (by decide)

/-- The marker table of section 4.2 of the specification, stated for
comparison with footnote_unicode: every lowercase letter with its
superscript glyph, with the documented quirk at the letter q. -/
def superscriptTable : List (String × String) :=
  [("a", "ᵃ"), ("b", "ᵇ"), ("c", "ᶜ"), ("d", "ᵈ"), ("e", "ᵉ"), ("f", "ᶠ"),
   ("g", "ᵍ"), ("h", "ʰ"), ("i", "ⁱ"), ("j", "ʲ"), ("k", "ᵏ"), ("l", "ˡ"),
   ("m", "ᵐ"), ("n", "ⁿ"), ("o", "ᵒ"), ("p", "ᵖ"), ("q", "q"), ("r", "ʳ"),
   ("s", "ˢ"), ("t", "ᵗ"), ("u", "ᵘ"), ("v", "ᵛ"), ("w", "ʷ"), ("x", "ˣ"),
   ("y", "ʸ"), ("z", "ᶻ")]

/-- C4: the footnote marker mapper sends each single lowercase letter to
its superscript glyph, with q mapped to the literal letter q; an absent
value, a multi-character string, a non-letter, and in general any string
outside the table yield no mapping. -/
theorem footnote_marker_mapper_spec :
    (∀ p ∈ superscriptTable, footnote_unicode (some p.1) = some p.2) ∧
    footnote_unicode (some "a") = some "ᵃ" ∧
    footnote_unicode (some "q") = some "q" ∧
    footnote_unicode (some "z") = some "ᶻ" ∧
    footnote_unicode none = none ∧
    footnote_unicode (some "aa") = none ∧
    footnote_unicode (some "0") = none ∧
    (∀ s : String, (∀ p ∈ superscriptTable, p.1 ≠ s) →
      footnote_unicode (some s) = none) := by
  refine ⟨by decide, by decide, by decide, by decide, rfl, by decide, by decide, ?_⟩
  intro s h
  have hne : ∀ p ∈ superscriptTable, ¬(s = p.1) := fun p hp he => (h p hp) he.symm
  simp only [footnote_unicode]
  rw [if_neg (hne ("a", "ᵃ") (by decide)), if_neg (hne ("b", "ᵇ") (by decide)),
    if_neg (hne ("c", "ᶜ") (by decide)), if_neg (hne ("d", "ᵈ") (by decide)),
    if_neg (hne ("e", "ᵉ") (by decide)), if_neg (hne ("f", "ᶠ") (by decide)),
    if_neg (hne ("g", "ᵍ") (by decide)), if_neg (hne ("h", "ʰ") (by decide)),
    if_neg (hne ("i", "ⁱ") (by decide)), if_neg (hne ("j", "ʲ") (by decide)),
    if_neg (hne ("k", "ᵏ") (by decide)), if_neg (hne ("l", "ˡ") (by decide)),
    if_neg (hne ("m", "ᵐ") (by decide)), if_neg (hne ("n", "ⁿ") (by decide)),
    if_neg (hne ("o", "ᵒ") (by decide)), if_neg (hne ("p", "ᵖ") (by decide)),
    if_neg (hne ("q", "q") (by decide)), if_neg (hne ("r", "ʳ") (by decide)),
    if_neg (hne ("s", "ˢ") (by decide)), if_neg (hne ("t", "ᵗ") (by decide)),
    if_neg (hne ("u", "ᵘ") (by decide)), if_neg (hne ("v", "ᵛ") (by decide)),
    if_neg (hne ("w", "ʷ") (by decide)), if_neg (hne ("x", "ˣ") (by decide)),
    if_neg (hne ("y", "ʸ") (by decide)), if_neg (hne ("z", "ᶻ") (by decide))]

/-- Witness for C4: a letter from the table maps to its glyph and a
string outside the table has no mapping. -/
theorem footnote_marker_mapper_spec_witness :
    footnote_unicode (some "g") = some "ᵍ" ∧ footnote_unicode (some "A") = none :=
  ⟨footnote_marker_mapper_spec.1 ("g", "ᵍ") (by decide),
   footnote_marker_mapper_spec.2.2.2.2.2.2.2 "A" (by decide)⟩

lemma footnotesLines_eq_filterMap (c : Chapter) (rs : List String) :
    footnotesLines c rs =
      rs.filterMap (fun r => (lookupFootnote c r).map footnoteLine) := by
  induction rs with
  | nil => rfl
  | cons r rs ih =>
    unfold footnotesLines
    cases h : lookupFootnote c r with
    | none => simp [h, ih, List.filterMap_cons]
    | some fn => simp [h, ih, List.filterMap_cons]

lemma footnotesLines_length (c : Chapter) (rs : List String) :
    (footnotesLines c rs).length =
      (rs.filter (fun r => (lookupFootnote c r).isSome)).length := by
  induction rs with
  | nil => rfl
  | cons r rs ih =>
    unfold footnotesLines
    cases h : lookupFootnote c r with
    | none => simp [h, ih, List.filter_cons]
    | some fn => simp [h, ih, List.filter_cons]

/-- C5: the footnote linker scans the data-ref attributes of the
study-note-ref descendants in document order without deduplication, emits
exactly one line per scanned id that resolves in the footnote table (so a
doubly referenced id yields two lines and an unresolved id yields none,
with no error), and each line is a bold label-text span followed by an
unstyled content-text span. -/
theorem footnote_linker_spec (c : Chapter) :
    Chapter.footnotes_text c =
      (Chapter.refs_in_order c).filterMap
        (fun r => (lookupFootnote c r).map footnoteLine) ∧
    Chapter.refs_in_order c =
      (c.doc.descendants.filter
        (fun n => decide (n.attribute "class" = some "study-note-ref"))).filterMap
        (fun n => n.attribute "data-ref") ∧
    (Chapter.footnotes_text c).length =
      ((Chapter.refs_in_order c).filter
        (fun r => (lookupFootnote c r).isSome)).length ∧
    footnoteLine = (fun fn =>
      { spans := [{ content := collectText fn.label_doc,
                    style := { bold := true, italic := false } },
                  { content := collectText fn.content_doc,
                    style := { bold := false, italic := false } }],
        alignment := none }) :=
  ⟨footnotesLines_eq_filterMap c _, rfl, footnotesLines_length c _, rfl⟩

lemma snr_spans_false_eq (cs : List XNode) :
    snr_spans false cs = cs.flatMap (fun c =>
      if c.tagName = "sup" then
        match footnote_unicode c.nodeText with
        | some g => [{ content := g, style := { bold := false, italic := true } }]
        | none => []
      else
        match c with
        | .text t => [{ content := t, style := { bold := false, italic := false } }]
        | .element _ _ _ => []) := by
  induction cs with
  | nil => rfl
  | cons c cs ih =>
    unfold snr_spans
    rw [List.flatMap_cons, ih]
    rfl

lemma snr_spans_true_eq (cs : List XNode) :
    snr_spans true cs = cs.flatMap (fun c =>
      if c.tagName = "sup" then
        match footnote_unicode c.nodeText with
        | some g => [{ content := g, style := { bold := false, italic := true } }]
        | none => []
      else
        match c with
        | .text t => [{ content := t, style := { bold := false, italic := true } }]
        | .element _ _ _ => []) := by
  induction cs with
  | nil => rfl
  | cons c cs ih =>
    unfold snr_spans
    rw [List.flatMap_cons, ih]
    rfl

lemma clarity_spans_eq (cs : List XNode) :
    clarity_spans cs = cs.flatMap (fun c =>
      if c.attribute "class" = some "study-note-ref" then
        c.children.flatMap (fun c2 =>
          if c2.tagName = "sup" then
            match footnote_unicode c2.nodeText with
            | some g => [{ content := g, style := { bold := false, italic := true } }]
            | none => []
          else
            match c2 with
            | .text t => [{ content := t, style := { bold := false, italic := true } }]
            | .element _ _ _ => [])
      else
        match c with
        | .text t => [{ content := t, style := { bold := false, italic := true } }]
        | .element _ _ _ => []) := by
  induction cs with
  | nil => rfl
  | cons c cs ih =>
    unfold clarity_spans clarity_span_one
    rw [List.flatMap_cons, ih, snr_spans_true_eq]

/-- A verse holding one direct study-note-ref child with a sup marker and
a trailing text node. -/
def snrVerse : XNode :=
  .element "p" [("class", "verse")]
    [.element "a" [("class", "study-note-ref"), ("data-ref", "n1")]
      [.element "sup" [] [.text "a"], .text " see note"]]

/-- Counterexample to C6 as stated: in snrVerse the study-note-ref is a
direct child of the verse, not inside a clarity-word, yet the span built
from its sup child carries italic emphasis rather than no styling. -/
theorem verse_sup_style_counterexample :
    verse_text snrVerse =
      some { spans := [{ content := "ᵃ", style := { bold := false, italic := true } },
                       { content := " see note",
                         style := { bold := false, italic := false } }],
             alignment := none } ∧
    ({ bold := false, italic := true } : TStyle) ≠
      { bold := false, italic := false } :=
  ⟨rfl, by decide⟩

/-- C6 amended: the span produced from a sup child of a study-note-ref
always carries italic emphasis, both when the study-note-ref sits inside a
clarity-word and when it is a direct child of the verse; the sibling
text-node children of a direct study-note-ref yield unstyled spans, while
inside a clarity-word they yield italic spans. -/
theorem verse_snr_spans_amended (child : XNode) :
    (child.attribute "class" = some "study-note-ref" →
      verse_child_spans child = some (child.children.flatMap (fun c =>
        if c.tagName = "sup" then
          match footnote_unicode c.nodeText with
          | some g => [{ content := g, style := { bold := false, italic := true } }]
          | none => []
        else
          match c with
          | .text t => [{ content := t, style := { bold := false, italic := false } }]
          | .element _ _ _ => []))) ∧
    (child.attribute "class" = some "clarity-word" → child.nodeText = none →
      verse_child_spans child = some (child.children.flatMap (fun c =>
        if c.attribute "class" = some "study-note-ref" then
          c.children.flatMap (fun c2 =>
            if c2.tagName = "sup" then
              match footnote_unicode c2.nodeText with
              | some g => [{ content := g, style := { bold := false, italic := true } }]
              | none => []
            else
              match c2 with
              | .text t => [{ content := t, style := { bold := false, italic := true } }]
              | .element _ _ _ => [])
        else
          match c with
          | .text t => [{ content := t, style := { bold := false, italic := true } }]
          | .element _ _ _ => []))) := by
  constructor
  · intro h
    cases child with
    | text t => simp [XNode.attribute] at h
    | element tag attrs cs =>
      unfold verse_child_spans
      rw [if_neg (by rw [h]; decide), if_neg (by rw [h]; simp [XNode.isText]),
        if_neg (by rw [h]; decide), if_pos h]
      rw [show (XNode.element tag attrs cs).children = cs from rfl, snr_spans_false_eq]
  · intro h hnt
    cases child with
    | text t => simp [XNode.attribute] at h
    | element tag attrs cs =>
      unfold verse_child_spans
      rw [if_neg (by rw [h]; decide), if_neg (by rw [h]; simp [XNode.isText]),
        if_pos h, hnt]
      show some (clarity_spans cs) = _
      rw [clarity_spans_eq]
      rfl

/-- Witness for the amended C6: a direct study-note-ref child yields an
italic glyph span and an unstyled text span. -/
theorem verse_snr_spans_amended_witness :
    verse_child_spans (XNode.element "a" [("class", "study-note-ref")]
        [XNode.element "sup" [] [XNode.text "b"], XNode.text "t"]) =
      some [{ content := "ᵇ", style := { bold := false, italic := true } },
            { content := "t", style := { bold := false, italic := false } }] := by
  rw [(verse_snr_spans_amended (XNode.element "a" [("class", "study-note-ref")]
    [XNode.element "sup" [] [XNode.text "b"], XNode.text "t"])).1 rfl]
  rfl

lemma verses_lines_eq_mapM (vs : List XNode) :
    verses_lines vs =
      (vs.mapM verse_text).map (fun ls => ls.flatMap (fun l => [l, emptyLine])) := by
  induction vs with
  | nil => rfl
  | cons v vs ih =>
    rw [List.mapM_cons]
    cases hv : verse_text v with
    | none => simp [verses_lines, hv]
    | some l =>
      cases hm : vs.mapM verse_text with
      | none => simp [verses_lines, hv, hm, hm ▸ ih]
      | some ls => simp [verses_lines, hv, hm, hm ▸ ih, List.flatMap_cons]

/-- C7: when the parsed chapter markup has no body element the renderer
returns the empty model without crashing; when a body exists but holds no
header node, the output has no title, subtitle, intro or summary lines and
is exactly one line plus one blank line per class-verse descendant of the
body, in document order. -/
theorem chapter_render_missing_nodes (c : Chapter) :
    (c.doc.descendants.find? (fun n => decide (n.tagName = "body")) = none →
      Chapter.text c = some []) ∧
    (∀ body, c.doc.descendants.find? (fun n => decide (n.tagName = "body")) = some body →
      body.descendants.find? (fun n => decide (n.tagName = "header")) = none →
      Chapter.text c =
        ((body.descendants.filter
            (fun n => decide (n.attribute "class" = some "verse"))).mapM
          verse_text).map (fun ls => ls.flatMap (fun l => [l, emptyLine]))) := by
  constructor
  · intro h
    unfold Chapter.text
    rw [h]
  · intro body hb hh
    simp only [Chapter.text, hb, hh, List.nil_append]
    rw [verses_lines_eq_mapM, Option.map_map]
    rfl

/-- Chapter markup without any body element. -/
def noBodyChapter : Chapter :=
  { title := "", doc := .element "html" [] [.element "div" [] []], footnotes := [] }

/-- Chapter markup with a body but no header node and one verse. -/
def noHeaderChapter : Chapter :=
  { title := "",
    doc := .element "html" []
      [.element "body" [] [.element "p" [("class", "verse")] [.text "v1"]]],
    footnotes := [] }

/-- Witness for C7 at two concrete chapters: no body gives the empty
model; a body without header gives exactly the verse line and its blank
line. -/
theorem chapter_render_missing_nodes_witness :
    Chapter.text noBodyChapter = some [] ∧
    Chapter.text noHeaderChapter =
      some [{ spans := [{ content := "v1", style := { bold := false, italic := false } }],
              alignment := none }, emptyLine] := by
  constructor
  · exact (chapter_render_missing_nodes noBodyChapter).1 (by rfl)
  · rw [(chapter_render_missing_nodes noHeaderChapter).2
      (XNode.element "body" [] [.element "p" [("class", "verse")] [.text "v1"]])
      (by rfl) (by rfl)]
    rfl

/-- A verse whose verse-number child has an element as first child, so it
carries no direct text. -/
def badVerse : XNode :=
  .element "p" [("class", "verse")]
    [.element "span" [("class", "verse-number")] [.element "b" [] [.text "1"]]]

lemma verse_spans_total (cs : List XNode)
    (h : ∀ child ∈ cs,
      (child.attribute "class" = some "verse-number" ∨
       child.attribute "class" = some "para-mark") → (child.nodeText).isSome = true) :
    (verse_spans cs).isSome = true := by
  induction cs with
  | nil => rfl
  | cons c cs ih =>
    have hc : (verse_child_spans c).isSome = true := by
      unfold verse_child_spans
      split_ifs with h1 h2 h3 h4
      · have hs := h c (List.mem_cons_self c cs) (Or.inl h1)
        cases hnt : c.nodeText with
        | none => rw [hnt] at hs; simp at hs
        | some t => rfl
      · rcases h2 with h2 | h2
        · have hs := h c (List.mem_cons_self c cs) (Or.inr h2)
          cases hnt : c.nodeText with
          | none => rw [hnt] at hs; simp at hs
          | some t => rfl
        · cases c with
          | text t => rfl
          | element tag attrs cs2 => simp [XNode.isText] at h2
      · cases hnt : c.nodeText <;> simp [hnt]
      · rfl
      · rfl
    obtain ⟨s, hs⟩ := Option.isSome_iff_exists.mp hc
    have hrest := ih (fun child hm hp => h child (List.mem_cons_of_mem c hm) hp)
    obtain ⟨rest, hr⟩ := Option.isSome_iff_exists.mp hrest
    unfold verse_spans
    simp [hs, hr]

/-- C10: verse rendering is partial beyond parse failure: on badVerse,
whose verse-number child has no direct text, verse_text panics (modelled
as none); and whenever every verse-number or para-mark direct child of a
verse carries direct text, verse_text succeeds. -/
theorem verse_text_partiality :
    verse_text badVerse = none ∧
    (∀ verse : XNode,
      (∀ child ∈ verse.children,
        (child.attribute "class" = some "verse-number" ∨
         child.attribute "class" = some "para-mark") →
        (child.nodeText).isSome = true) →
      (verse_text verse).isSome = true) := by
  constructor
  · rfl
  · intro verse h
    obtain ⟨x, hx⟩ := Option.isSome_iff_exists.mp (verse_spans_total verse.children h)
    unfold verse_text
    rw [hx]
    rfl

/-- Witness for C10: a verse whose verse-number and para-mark children
carry direct text renders successfully. -/
theorem verse_text_partiality_witness :
    (verse_text (XNode.element "p" [("class", "verse")]
      [XNode.element "span" [("class", "verse-number")] [XNode.text "7"],
       XNode.text " In the beginning"])).isSome = true :=
  verse_text_partiality.2 (XNode.element "p" [("class", "verse")]
    [XNode.element "span" [("class", "verse-number")] [XNode.text "7"],
     XNode.text " In the beginning"]) (by decide)
